import Mathlib

/-!
Verification of the MFEM Ginkgo bridge layer (`linalg/ginkgo.cpp`).

Shallow embedding: the control flow of the bridge code (executor
construction, solver/preconditioner state machines, the wrapped-operator
scaled apply, the stopping-criterion composition and the AMG factory
assembly) is translated into executable Lean definitions, and the spec's
claims are settled as theorems about those definitions.

Numeric data is modelled over `ℚ`; backend objects (Ginkgo factories,
generated solvers) are modelled as inductive descriptions recording the
parameters the source code passes to them.
-/

namespace MfemGinkgo

/-! ## Executor construction (`GinkgoExecutor::GinkgoExecutor`) -/

/-- The `ExecType` enumeration of `GinkgoExecutor`. -/
inductive ExecType
  | REFERENCE
  | OMP
  | CUDA
  | HIP
deriving DecidableEq, Repr

/-- A constructed Ginkgo executor (the value stored in the `executor`
member when construction assigns one). -/
inductive Exec
  | reference
  | omp
  | cuda (device : Nat)
  | hip (device : Nat)
deriving DecidableEq, Repr

/-- Outcome of running a `GinkgoExecutor` constructor body:
either an executor is assigned, or the program aborts fatally
(`MFEM_ABORT`), or an error message is printed to `mfem::err` and the
constructor finishes with the `executor` member left unset. -/
inductive CtorOutcome
  | ok (e : Exec)
  | abort (msg : String)
  | errContinue (msg : String)
deriving DecidableEq, Repr

/-- Embedding of `GinkgoExecutor::GinkgoExecutor(ExecType)`.
`numCudaDevices` / `numHipDevices` stand for
`gko::CudaExecutor::get_num_devices()` / `gko::HipExecutor::get_num_devices()`,
and `currentDevice` for the device id returned by `cudaGetDevice` /
`hipGetDevice`.  The CUDA branch aborts via `MFEM_ABORT` when no device is
reported; the HIP branch only streams a message to `mfem::err` and falls
through, leaving `executor` unset; the default branch likewise only prints. -/
def GinkgoExecutor.ofExecType (t : ExecType)
    (numCudaDevices numHipDevices currentDevice : Nat) : CtorOutcome :=
  match t with
  | .REFERENCE => .ok .reference
  | .OMP => .ok .omp
  | .CUDA =>
      if 0 < numCudaDevices then
        .ok (.cuda currentDevice)
      else
        .abort "gko CudaExecutor get_num_devices did not report any valid devices."
  | .HIP =>
      if 0 < numHipDevices then
        .ok (.hip currentDevice)
      else
        .errContinue "gko HipExecutor get_num_devices did not report any valid devices"

/-- Embedding of the best-match constructor
`GinkgoExecutor::GinkgoExecutor(Device&)`: prefers CUDA, then HIP, then
OMP; in this constructor a HIP request with zero devices aborts via
`MFEM_ABORT`, unlike the `ExecType` constructor's HIP branch. -/
def GinkgoExecutor.ofDevice (allowsCuda allowsHip : Bool)
    (numCudaDevices numHipDevices currentDevice : Nat) : CtorOutcome :=
  if allowsCuda then
    if 0 < numCudaDevices then
      .ok (.cuda currentDevice)
    else
      .abort "gko CudaExecutor get_num_devices did not report any valid devices."
  else if allowsHip then
    if 0 < numHipDevices then
      .ok (.hip currentDevice)
    else
      .abort "gko HipExecutor get_num_devices did not report any valid devices."
  else
    .ok .omp

/-- C1: the claim says an explicitly requested CUDA **or HIP** backend with
zero available devices fails with a fatal error and never silently
continues.  The code upholds this for CUDA (`MFEM_ABORT`), but the HIP
branch of `GinkgoExecutor(ExecType)` only prints to `mfem::err` and
finishes construction with a null executor, while the best-match
constructor aborts for HIP in the identical situation — evidence that the
non-fatal HIP branch is a slip in the code.  This theorem evaluates the
embedded constructor at the failing input (HIP requested, zero HIP
devices) and contrasts it with the CUDA branch and with the best-match
constructor's HIP branch. -/
theorem C1_hip_zero_devices_not_fatal :
    GinkgoExecutor.ofExecType .HIP 0 0 0 =
      .errContinue "gko HipExecutor get_num_devices did not report any valid devices"
    ∧ GinkgoExecutor.ofExecType .CUDA 0 0 0 =
      .abort "gko CudaExecutor get_num_devices did not report any valid devices."
    ∧ GinkgoExecutor.ofDevice false true 0 0 0 =
      .abort "gko HipExecutor get_num_devices did not report any valid devices."
    ∧ ∀ e : Exec, GinkgoExecutor.ofExecType .HIP 0 0 0 ≠ .ok e := by
  refine ⟨rfl, rfl, rfl, ?_⟩
  intro e h
  simp [GinkgoExecutor.ofExecType] at h

/-! ## Solver parameters and the stopping-criterion factory
(`GinkgoIterativeSolver::GinkgoIterativeSolver`, `update_stop_factory`) -/

/-- The tolerance/iteration state of a `GinkgoIterativeSolver`. -/
structure SolverParams where
  use_implicit_res_norm : Bool
  print_level : Int
  max_iter : Nat
  rel_tol : ℚ
  abs_tol : ℚ
deriving DecidableEq, Repr

/-- The parameter state set up by the `GinkgoIterativeSolver` constructor:
`print_level = -1`, `max_iter = 10`, `rel_tol = 0`, `abs_tol = 0`. -/
def GinkgoIterativeSolver.initParams (useImplicit : Bool) : SolverParams :=
  { use_implicit_res_norm := useImplicit
    print_level := -1
    max_iter := 10
    rel_tol := 0
    abs_tol := 0 }

/-- Which transform `update_stop_factory` applies to a tolerance when it is
passed as a criterion's reduction factor. -/
inductive TolTransform
  | sqrtApplied
  | identity
deriving DecidableEq, Repr

/-- Record of the criteria composed by `update_stop_factory`: the transform
applied to each tolerance and the iteration cap of the `Iteration`
criterion. -/
structure CriteriaRecord where
  relTransform : TolTransform
  absTransform : TolTransform
  maxIters : Nat
deriving DecidableEq, Repr

/-- Embedding of `GinkgoIterativeSolver::update_stop_factory`: in implicit
mode both criteria receive `sqrt(tol)` as reduction factor
(`with_reduction_factor(sqrt(rel_tol))`, `with_reduction_factor(sqrt(abs_tol))`);
in explicit mode the tolerances are passed unchanged; in both modes an
`Iteration` criterion with `max_iter` is added. -/
def update_stop_factory (p : SolverParams) : CriteriaRecord :=
  if p.use_implicit_res_norm then
    { relTransform := .sqrtApplied, absTransform := .sqrtApplied, maxIters := p.max_iter }
  else
    { relTransform := .identity, absTransform := .identity, maxIters := p.max_iter }

/-- Semantics of the combined (logical-OR) stopping criterion built by
`update_stop_factory`.  Explicit mode: stop when
`resNorm ≤ rel_tol * initResNorm` or `resNorm ≤ abs_tol`.  Implicit mode
passes `sqrt(tol)` as reduction factor and checks the square root of the
implicitly tracked squared norm, i.e.
`sqrt(impSq) ≤ sqrt(rel_tol) * initResNorm`; this is written here in the
exactly equivalent squared form `impSq ≤ rel_tol * initResNorm ^ 2`
(for nonnegative quantities) to stay in `ℚ`.  The `Iteration` criterion
stops once `max_iter ≤ iter`. -/
def combinedStops (p : SolverParams) (iter : Nat)
    (resNorm impSqResNorm initResNorm : ℚ) : Bool :=
  (if p.use_implicit_res_norm then decide (impSqResNorm ≤ p.rel_tol * initResNorm ^ 2)
   else decide (resNorm ≤ p.rel_tol * initResNorm))
  || (if p.use_implicit_res_norm then decide (impSqResNorm ≤ p.abs_tol)
      else decide (resNorm ≤ p.abs_tol))
  || decide (p.max_iter ≤ iter)

/-! ## Convergence logger and final-residual extraction
(`GinkgoIterativeSolver::Mult`, lines 350-407) -/

/-- The data held by the convergence logger after `solver->apply` returns:
iteration count, converged flag, the explicit residual norm, the
implicitly tracked squared residual norm, and whether the logger's dense
result objects live on a device executor. -/
structure LoggerResult where
  num_iterations : Nat
  has_converged : Bool
  residual_norm : ℚ
  implicit_sq_resnorm : ℚ
  on_device : Bool
deriving DecidableEq, Repr

/-- Result of extracting the final residual norm from the logger: the value
assigned to `final_res_norm`, and whether the source performed the
create-on-master plus `copy_from` step that brings a device-resident
result to the host. -/
structure ResNormExtraction where
  value : ℚ
  copiedToHost : Bool
deriving DecidableEq, Repr

/-- Embedding of the residual-extraction tail of
`GinkgoIterativeSolver::Mult`: in implicit mode the logger's
`get_implicit_sq_resnorm()` value is copied to a master-resident 1x1 dense
and assigned to `final_res_norm` unchanged (no square root is applied);
in explicit mode the same is done with `get_residual_norm()`.  The
`copy_from` to the master executor is performed unconditionally in both
branches, so in particular whenever the logger's result is
device-resident. -/
def extract_final_res_norm (use_implicit : Bool) (lg : LoggerResult) :
    ResNormExtraction :=
  if use_implicit then
    { value := lg.implicit_sq_resnorm, copiedToHost := true }
  else
    { value := lg.residual_norm, copiedToHost := true }

/-- How `Mult` wraps the caller's vectors: plain Ginkgo dense views over
MFEM data, or `VectorWrapper` objects. -/
inductive VecWrapKind
  | plainView
  | wrapped
deriving DecidableEq, Repr

/-- What a completed `GinkgoIterativeSolver::Mult` call produced: the final
iterate written into the caller's solution vector, the logger-derived
diagnostics, the vector wrapping used, and whether the
"No convergence!" message was streamed to `mfem::err`. -/
structure MultOutcome where
  y : List ℚ
  final_iter : Nat
  final_res_norm : ℚ
  converged : Bool
  wrapKind : VecWrapKind
  noConvergenceMessage : Bool
deriving DecidableEq, Repr

/-- Embedding of `GinkgoIterativeSolver::Mult`.  The backend solve itself
is an oracle `solverApply : rhs → initial guess → final iterate`; the
logger outcome `lg` is what the freshly attached convergence logger holds
after the solve.  Faithful to the source: the `MFEM_VERIFY` guards abort
first; without `iterative_mode` the solution vector is zeroed; the vectors
are wrapped per `needs_wrapped_vecs`; after the solve the iteration count,
converged flag and final residual norm are read off the logger; a
non-converged solve only prints "No convergence!" and still returns the
written iterate. -/
def GinkgoIterativeSolver.Mult (p : SolverParams)
    (needs_wrapped_vecs hasSystemOper iterative_mode : Bool)
    (solverApply : List ℚ → List ℚ → List ℚ)
    (lg : LoggerResult) (x y : List ℚ) : Except String MultOutcome :=
  if ¬ hasSystemOper then
    .error "System matrix or operator not initialized"
  else if y.length ≠ x.length then
    .error "Mismatching sizes for rhs and solution"
  else
    let y0 := if iterative_mode then y else y.map fun _ => 0
    let wk := if needs_wrapped_vecs then VecWrapKind.wrapped else VecWrapKind.plainView
    let yfinal := solverApply x y0
    let ext := extract_final_res_norm p.use_implicit_res_norm lg
    .ok { y := yfinal
          final_iter := lg.num_iterations
          final_res_norm := ext.value
          converged := lg.has_converged
          wrapKind := wk
          noConvergenceMessage := !lg.has_converged }

/-- C2 counterexample: the claim says the implicitly tracked squared
quantity has its square root taken before being reported.  At a logger
holding implicit squared residual `4`, the square root is `2`
(witnessed by `2 ^ 2 = 4`), yet the code reports `4`. -/
theorem C2_implicit_no_sqrt_counterexample :
    ((2 : ℚ) ^ 2 = 4) ∧
    (extract_final_res_norm true
      { num_iterations := 3, has_converged := true, residual_norm := 0,
        implicit_sq_resnorm := 4, on_device := true }).value = 4 ∧
    (extract_final_res_norm true
      { num_iterations := 3, has_converged := true, residual_norm := 0,
        implicit_sq_resnorm := 4, on_device := true }).value ≠ 2 := by
  refine ⟨by norm_num, rfl, ?_⟩
  simp [extract_final_res_norm]

/-- C2 amended: the final residual norm is the logger's quantity
untransformed in both modes — implicit mode reports the implicitly
tracked squared value as-is, the square-root transform being applied
instead to the tolerances when the implicit stopping criteria are built —
and the logger's result is copied to a master-resident dense before being
read (covering the device-resident case). -/
theorem C2_final_res_norm_extraction (u : Bool) (lg : LoggerResult)
    (p : SolverParams) (himp : p.use_implicit_res_norm = true) :
    (extract_final_res_norm true lg).value = lg.implicit_sq_resnorm ∧
    (extract_final_res_norm false lg).value = lg.residual_norm ∧
    (extract_final_res_norm u lg).copiedToHost = true ∧
    (update_stop_factory p).relTransform = .sqrtApplied ∧
    (update_stop_factory p).absTransform = .sqrtApplied := by
  refine ⟨rfl, rfl, ?_, ?_, ?_⟩
  · cases u <;> rfl
  · simp [update_stop_factory, himp]
  · simp [update_stop_factory, himp]

/-- C2 witness: the amended extraction theorem applied at a concrete
logger state and solver parameters. -/
theorem C2_final_res_norm_extraction_witness :
    (extract_final_res_norm true
      { num_iterations := 5, has_converged := true, residual_norm := 3,
        implicit_sq_resnorm := 9, on_device := true }).value = 9 ∧
    (extract_final_res_norm false
      { num_iterations := 5, has_converged := true, residual_norm := 3,
        implicit_sq_resnorm := 9, on_device := true }).value = 3 ∧
    (extract_final_res_norm true
      { num_iterations := 5, has_converged := true, residual_norm := 3,
        implicit_sq_resnorm := 9, on_device := true }).copiedToHost = true ∧
    (update_stop_factory (GinkgoIterativeSolver.initParams true)).relTransform
      = .sqrtApplied ∧
    (update_stop_factory (GinkgoIterativeSolver.initParams true)).absTransform
      = .sqrtApplied :=
  C2_final_res_norm_extraction true
    { num_iterations := 5, has_converged := true, residual_norm := 3,
      implicit_sq_resnorm := 9, on_device := true }
    (GinkgoIterativeSolver.initParams true) rfl

/-- C9: a freshly constructed `GinkgoIterativeSolver` has relative
tolerance `0`, absolute tolerance `0` and a maximum-iteration cap of
`10`, and the combined stopping criterion these defaults build halts
every solve after at most `10` iterations (the `Iteration` criterion
fires at iteration `10` regardless of the residual values, in either
residual mode). -/
theorem C9_default_params_halt_at_ten (b : Bool) :
    (GinkgoIterativeSolver.initParams b).rel_tol = 0 ∧
    (GinkgoIterativeSolver.initParams b).abs_tol = 0 ∧
    (GinkgoIterativeSolver.initParams b).max_iter = 10 ∧
    ∀ (iter : Nat) (resNorm impSq initRes : ℚ), 10 ≤ iter →
      combinedStops (GinkgoIterativeSolver.initParams b) iter resNorm impSq initRes
        = true := by
  refine ⟨rfl, rfl, rfl, ?_⟩
  intro iter resNorm impSq initRes h
  simp [combinedStops, GinkgoIterativeSolver.initParams, h]

/-- C9 witness: the default criterion of an implicit-mode solver stops at
iteration 10 with residual data that satisfies no tolerance. -/
theorem C9_default_params_halt_at_ten_witness :
    combinedStops (GinkgoIterativeSolver.initParams true) 10 7 7 1 = true :=
  (C9_default_params_halt_at_ten true).2.2.2 10 7 7 1 (by decide)

/-- C8: a solve via `GinkgoIterativeSolver::Mult` whose logger reports
non-convergence raises no error and does not abort: the call still
returns `.ok`, the last iterate produced by the backend solve is written
into the caller's solution vector, the converged flag is `false`, and the
only further signal is the "No convergence!" diagnostic message. -/
theorem C8_nonconvergence_is_soft (p : SolverParams)
    (nw im : Bool) (solverApply : List ℚ → List ℚ → List ℚ)
    (lg : LoggerResult) (x y : List ℚ)
    (hconv : lg.has_converged = false) (hlen : y.length = x.length) :
    GinkgoIterativeSolver.Mult p nw true im solverApply lg x y =
      .ok { y := solverApply x (if im then y else y.map fun _ => 0)
            final_iter := lg.num_iterations
            final_res_norm := (extract_final_res_norm p.use_implicit_res_norm lg).value
            converged := false
            wrapKind := if nw then .wrapped else .plainView
            noConvergenceMessage := true } := by
  simp [GinkgoIterativeSolver.Mult, hlen, hconv]

/-- C8 witness: a concrete non-converged solve returns `.ok` with the last
iterate written and the converged flag `false`. -/
theorem C8_nonconvergence_is_soft_witness :
    GinkgoIterativeSolver.Mult (GinkgoIterativeSolver.initParams true)
      false true false (fun a _ => a)
      { num_iterations := 7, has_converged := false, residual_norm := 1,
        implicit_sq_resnorm := 1, on_device := false } [1, 2] [5, 6] =
      .ok { y := [1, 2], final_iter := 7, final_res_norm := 1,
            converged := false, wrapKind := .plainView,
            noConvergenceMessage := true } :=
  C8_nonconvergence_is_soft (GinkgoIterativeSolver.initParams true)
    false false (fun a _ => a)
    { num_iterations := 7, has_converged := false, residual_norm := 1,
      implicit_sq_resnorm := 1, on_device := false } [1, 2] [5, 6] rfl rfl

/-! ## OperatorWrapper apply (`OperatorWrapper::apply_impl`, lines 197-279) -/

/-- A Ginkgo dense operand used as a scaling factor in the scaled apply:
its reported size (`get_size()[0]`, `get_size()[1]`), its single payload
value, and whether it is device-resident (its executor differs from that
executor's master). -/
structure DenseScalar where
  rows : Nat
  cols : Nat
  value : ℚ
  onDevice : Bool
deriving DecidableEq, Repr

/-- How a scalar operand's value was obtained: read directly on the host,
or brought over by an explicit device-to-host `copy_from` of the single
element. -/
inductive ReadPath
  | direct
  | deviceCopy
deriving DecidableEq, Repr

/-- Result of the scaled `apply_impl`: either a thrown `gko::BadDimension`
naming the offending operand, or the updated solution vector together
with the read path used for each scalar. -/
inductive ApplyScaledResult
  | badDimension (operand : String)
  | ok (x : List ℚ) (alphaRead betaRead : ReadPath)
deriving DecidableEq, Repr

/-- Embedding of the plain `OperatorWrapper::apply_impl(b, x)`:
`x = Op(b)` via the wrapped operator's `Mult`. -/
def OperatorWrapper.apply_plain (op : List ℚ → List ℚ) (b : List ℚ) : List ℚ :=
  op b

/-- Embedding of the scaled `OperatorWrapper::apply_impl(alpha, b, beta, x)`
computing `x = alpha * Op(b) + beta * x`: reject `alpha` then `beta` when
either reported dimension exceeds 1 (`get_size()[i] > 1`); read each
scalar directly when its executor is its own master, otherwise copy its
single element to the host first (either path yields the stored value);
then scale `x` by `beta`, apply the wrapped operator to `b` into a
temporary, and add `alpha` times the temporary. -/
def OperatorWrapper.apply_scaled (op : List ℚ → List ℚ)
    (alpha : DenseScalar) (b : List ℚ) (beta : DenseScalar) (x : List ℚ) :
    ApplyScaledResult :=
  if 1 < alpha.rows ∨ 1 < alpha.cols then
    .badDimension "alpha"
  else if 1 < beta.rows ∨ 1 < beta.cols then
    .badDimension "beta"
  else
    let alphaRead := if alpha.onDevice then ReadPath.deviceCopy else ReadPath.direct
    let betaRead := if beta.onDevice then ReadPath.deviceCopy else ReadPath.direct
    let alpha_f := alpha.value
    let beta_f := beta.value
    let x1 := x.map fun xi => xi * beta_f
    let tmp := op b
    .ok (List.zipWith (fun xi ti => xi + alpha_f * ti) x1 tmp) alphaRead betaRead

/-- C5 counterexample: the claim says a dimension error is raised whenever
`alpha` or `beta` is not a 1x1 scalar.  A degenerate 0x0 `alpha` operand
is not 1x1, yet the code's checks (`get_size()[i] > 1`) accept it and the
apply proceeds to an `ok` result instead of raising. -/
theorem C5_zero_dim_scalar_counterexample :
    (DenseScalar.mk 0 0 5 false).rows ≠ 1 ∧
    OperatorWrapper.apply_scaled (fun v => v)
      (DenseScalar.mk 0 0 5 false) [1] (DenseScalar.mk 1 1 0 false) [2] =
      .ok [5] .direct .direct ∧
    ∀ s : String,
      OperatorWrapper.apply_scaled (fun v => v)
        (DenseScalar.mk 0 0 5 false) [1] (DenseScalar.mk 1 1 0 false) [2] ≠
        .badDimension s := by
  refine ⟨by decide, by norm_num [OperatorWrapper.apply_scaled], ?_⟩
  intro s h
  simp [OperatorWrapper.apply_scaled] at h

/-- C5 amended: a dimension error is raised exactly when `alpha` (checked
first) or `beta` has a dimension exceeding 1 — degenerate operands with
both dimensions at most 1, including zero-sized ones, are accepted; a
host-resident scalar is read directly, and a device-resident scalar's
single element is obtained through an explicit device-to-host copy before
its value is used, never read as if host-resident. -/
theorem C5_scaled_apply_scalar_handling (op : List ℚ → List ℚ)
    (alpha beta : DenseScalar) (b x : List ℚ) :
    (1 < alpha.rows ∨ 1 < alpha.cols →
       OperatorWrapper.apply_scaled op alpha b beta x = .badDimension "alpha") ∧
    (alpha.rows ≤ 1 → alpha.cols ≤ 1 → (1 < beta.rows ∨ 1 < beta.cols) →
       OperatorWrapper.apply_scaled op alpha b beta x = .badDimension "beta") ∧
    (alpha.rows ≤ 1 → alpha.cols ≤ 1 → beta.rows ≤ 1 → beta.cols ≤ 1 →
       OperatorWrapper.apply_scaled op alpha b beta x =
         .ok (List.zipWith (fun xi ti => xi + alpha.value * ti)
                (x.map fun xi => xi * beta.value) (op b))
           (if alpha.onDevice then .deviceCopy else .direct)
           (if beta.onDevice then .deviceCopy else .direct)) := by
  refine ⟨?_, ?_, ?_⟩
  · intro h
    simp [OperatorWrapper.apply_scaled, h]
  · intro h1 h2 h3
    have hna : ¬ (1 < alpha.rows ∨ 1 < alpha.cols) := by omega
    simp [OperatorWrapper.apply_scaled, hna, h3]
  · intro h1 h2 h3 h4
    have hna : ¬ (1 < alpha.rows ∨ 1 < alpha.cols) := by omega
    have hnb : ¬ (1 < beta.rows ∨ 1 < beta.cols) := by omega
    simp [OperatorWrapper.apply_scaled, hna, hnb]

/-- C5 witness: the three branches of the scaled-apply characterization at
concrete operands — an oversized `alpha`, an oversized `beta`, and a
valid pair with a device-resident `alpha`. -/
theorem C5_scaled_apply_scalar_handling_witness :
    OperatorWrapper.apply_scaled (fun v => v)
      (DenseScalar.mk 2 1 3 false) [1] (DenseScalar.mk 1 1 0 false) [2] =
      .badDimension "alpha" ∧
    OperatorWrapper.apply_scaled (fun v => v)
      (DenseScalar.mk 1 1 3 false) [1] (DenseScalar.mk 1 2 0 false) [2] =
      .badDimension "beta" ∧
    OperatorWrapper.apply_scaled (fun v => v)
      (DenseScalar.mk 1 1 3 true) [1] (DenseScalar.mk 1 1 2 false) [2] =
      .ok [7] .deviceCopy .direct :=
  ⟨(C5_scaled_apply_scalar_handling (fun v => v)
      (DenseScalar.mk 2 1 3 false) (DenseScalar.mk 1 1 0 false) [1] [2]).1
      (by decide),
   (C5_scaled_apply_scalar_handling (fun v => v)
      (DenseScalar.mk 1 1 3 false) (DenseScalar.mk 1 2 0 false) [1] [2]).2.1
      (by decide) (by decide) (by decide),
   by
     have h := (C5_scaled_apply_scalar_handling (fun v => v)
        (DenseScalar.mk 1 1 3 true) (DenseScalar.mk 1 1 2 false) [1] [2]).2.2
        (by decide) (by decide) (by decide) (by decide)
     norm_num at h
     exact h⟩

/-- Helper: zipping two lists of equal length with the projection to the
second component returns the second list. -/
theorem zipWith_keep_second (x l : List ℚ) (h : l.length = x.length) :
    List.zipWith (fun _ ti => ti) x l = l := by
  induction x generalizing l with
  | nil => cases l <;> simp_all
  | cons a as ih =>
      cases l with
      | nil => simp at h
      | cons b bs =>
          simp only [List.zipWith_cons_cons, List.cons.injEq, true_and]
          exact ih bs (by simpa using h)

/-- C6: with `alpha = 1, beta = 0` the scaled composite apply produces
exactly the plain apply's result `Op(b)`, and with `alpha = 1, beta = 1`
it produces the pure accumulation `x + Op(b)` — for host-resident and
device-resident scalar operands alike (`dAlpha`, `dBeta` range over both
residencies). -/
theorem C6_scaled_apply_reduction (op : List ℚ → List ℚ) (b x : List ℚ)
    (dAlpha dBeta : Bool) (hlen : (op b).length = x.length) :
    OperatorWrapper.apply_scaled op (DenseScalar.mk 1 1 1 dAlpha) b
        (DenseScalar.mk 1 1 0 dBeta) x =
      .ok (OperatorWrapper.apply_plain op b)
        (if dAlpha then .deviceCopy else .direct)
        (if dBeta then .deviceCopy else .direct) ∧
    OperatorWrapper.apply_scaled op (DenseScalar.mk 1 1 1 dAlpha) b
        (DenseScalar.mk 1 1 1 dBeta) x =
      .ok (List.zipWith (· + ·) x (op b))
        (if dAlpha then .deviceCopy else .direct)
        (if dBeta then .deviceCopy else .direct) := by
  have key1 : List.zipWith (fun xi ti => xi + (1 : ℚ) * ti)
      (x.map fun xi => xi * 0) (op b) = op b := by
    rw [List.zipWith_map_left]
    simp only [mul_zero, zero_add, one_mul]
    exact zipWith_keep_second x (op b) hlen
  have key2 : List.zipWith (fun xi ti => xi + (1 : ℚ) * ti)
      (x.map fun xi => xi * 1) (op b) = List.zipWith (· + ·) x (op b) := by
    rw [List.zipWith_map_left]
    simp only [mul_one, one_mul]
  have e1 : OperatorWrapper.apply_scaled op (DenseScalar.mk 1 1 1 dAlpha) b
      (DenseScalar.mk 1 1 0 dBeta) x =
      ApplyScaledResult.ok
        (List.zipWith (fun xi ti => xi + (1 : ℚ) * ti)
          (x.map fun xi => xi * 0) (op b))
        (if dAlpha then .deviceCopy else .direct)
        (if dBeta then .deviceCopy else .direct) := rfl
  have e2 : OperatorWrapper.apply_scaled op (DenseScalar.mk 1 1 1 dAlpha) b
      (DenseScalar.mk 1 1 1 dBeta) x =
      ApplyScaledResult.ok
        (List.zipWith (fun xi ti => xi + (1 : ℚ) * ti)
          (x.map fun xi => xi * 1) (op b))
        (if dAlpha then .deviceCopy else .direct)
        (if dBeta then .deviceCopy else .direct) := rfl
  constructor
  · rw [e1, key1]
    rfl
  · rw [e2, key2]

/-- C6 witness: for the doubling operator on vectors, `alpha=1, beta=0`
reproduces the plain apply and `alpha=1, beta=1` accumulates, with a
device-resident `alpha`. -/
theorem C6_scaled_apply_reduction_witness :
    OperatorWrapper.apply_scaled (fun v => v.map fun t => (2 : ℚ) * t)
      (DenseScalar.mk 1 1 1 true) [1, 2] (DenseScalar.mk 1 1 0 false) [3, 4] =
      .ok [2, 4] .deviceCopy .direct ∧
    OperatorWrapper.apply_scaled (fun v => v.map fun t => (2 : ℚ) * t)
      (DenseScalar.mk 1 1 1 true) [1, 2] (DenseScalar.mk 1 1 1 false) [3, 4] =
      .ok [5, 8] .deviceCopy .direct := by
  have h := C6_scaled_apply_reduction (fun v => v.map fun t => (2 : ℚ) * t)
    [1, 2] [3, 4] true false (by simp)
  norm_num [OperatorWrapper.apply_plain] at h
  exact h

/-! ## Solver and preconditioner binding state machines
(`GinkgoIterativeSolver::SetOperator`, `GinkgoPreconditioner::SetOperator`,
and the constructors that set the wrapped-vector flags) -/

/-- The backend object bound as `system_oper`: a zero-copy CSR view of a
`SparseMatrix`, or an `OperatorWrapper` around a generic operator. -/
inductive BoundOper
  | csr (height width nnz : Nat)
  | wrapper (height : Nat)
deriving DecidableEq, Repr

/-- A generated backend solver, recording the operator it was generated
against (`solver_gen->generate(system_oper)`). -/
inductive GeneratedSolver
  | generated (oper : BoundOper)
deriving DecidableEq, Repr

/-- The binding state of a `GinkgoIterativeSolver`: the bound operator,
the generated solver, and the two wrapped-vector flags. -/
structure IterSolverState where
  system_oper : Option BoundOper
  solver : Option GeneratedSolver
  needs_wrapped_vecs : Bool
  sub_op_needs_wrapped_vecs : Bool
deriving DecidableEq, Repr

/-- An operator argument to `SetOperator`: a `SparseMatrix` (with its
height, width and nonzero count) or a generic `Operator`. -/
inductive OperInput
  | sparse (height width nnz : Nat)
  | generic (height width : Nat)
deriving DecidableEq, Repr

/-- Outcome of a `SetOperator` call: success with the new state, or a
fatal `MFEM_VERIFY` abort carrying the message and the object's state at
the moment of the abort. -/
inductive SetOpOutcome
  | ok (st : IterSolverState)
  | fatal (msg : String) (stAtAbort : IterSolverState)
deriving DecidableEq, Repr

/-- The release step at the top of `GinkgoIterativeSolver::SetOperator`:
when an operator is currently bound, reset `needs_wrapped_vecs` to false
unless a sub-operator requires it, and release the bound operator and
the generated solver. -/
def releasePriorBinding (st : IterSolverState) : IterSolverState :=
  if st.system_oper.isSome then
    { st with
      needs_wrapped_vecs :=
        if st.needs_wrapped_vecs = true ∧ st.sub_op_needs_wrapped_vecs = false
        then false else st.needs_wrapped_vecs
      system_oper := none
      solver := none }
  else st

/-- Embedding of `GinkgoIterativeSolver::SetOperator`: release any prior
binding first; for a `SparseMatrix`, verify squareness (`MFEM_VERIFY`,
fatal) and bind a CSR view; for a generic operator, set
`needs_wrapped_vecs` and bind an `OperatorWrapper`; finally generate the
solver against the new binding. -/
def GinkgoIterativeSolver.SetOperator (st : IterSolverState) (op : OperInput) :
    SetOpOutcome :=
  let st1 := releasePriorBinding st
  match op with
  | .sparse h w nnz =>
      if h ≠ w then
        .fatal "System matrix is not square" st1
      else
        .ok { st1 with
              system_oper := some (.csr h w nnz)
              solver := some (.generated (.csr h w nnz)) }
  | .generic h _ =>
      .ok { st1 with
            needs_wrapped_vecs := true
            system_oper := some (.wrapper h)
            solver := some (.generated (.wrapper h)) }

/-- The flag state established by the plain `GinkgoIterativeSolver`
constructor: no binding, both wrapped-vector flags false. -/
def GinkgoIterativeSolver.initState : IterSolverState :=
  { system_oper := none
    solver := none
    needs_wrapped_vecs := false
    sub_op_needs_wrapped_vecs := false }

/-- Flag effect of the preconditioned solver constructors
(`CGSolver(exec, preconditioner)` — the same pattern appears in the
BICGSTAB/CGS/FCG/GMRES/CBGMRES constructors): when the preconditioner has
a previously generated instance and that instance is an
`OperatorWrapper`, both `sub_op_needs_wrapped_vecs` and
`needs_wrapped_vecs` are set together. -/
def CGSolver.mkWithPrecond (hasGenerated generatedIsWrapper : Bool) :
    IterSolverState :=
  if hasGenerated ∧ generatedIsWrapper then
    { GinkgoIterativeSolver.initState with
      needs_wrapped_vecs := true
      sub_op_needs_wrapped_vecs := true }
  else
    GinkgoIterativeSolver.initState

/-- Flag effect of `IRSolver(exec, inner_solver)`: when the inner solver
uses `VectorWrapper`s, both flags are set together. -/
def IRSolver.mkWithInner (innerUsesWrappers : Bool) : IterSolverState :=
  if innerUsesWrappers then
    { GinkgoIterativeSolver.initState with
      needs_wrapped_vecs := true
      sub_op_needs_wrapped_vecs := true }
  else
    GinkgoIterativeSolver.initState

/-- A generated backend preconditioner instance, recording the CSR matrix
it was generated from. -/
inductive GeneratedPrecond
  | generated (height width nnz : Nat)
deriving DecidableEq, Repr

/-- The state of a `GinkgoPreconditioner`: the generated instance and the
`has_generated_precond` flag. -/
structure PrecondState where
  generated_precond : Option GeneratedPrecond
  has_generated_precond : Bool
deriving DecidableEq, Repr

/-- Outcome of `GinkgoPreconditioner::SetOperator`. -/
inductive PrecondSetOpOutcome
  | ok (st : PrecondState)
  | fatal (msg : String) (stAtAbort : PrecondState)
deriving DecidableEq, Repr

/-- The release step at the top of `GinkgoPreconditioner::SetOperator`:
a previously generated preconditioner is reset and the flag cleared. -/
def releasePriorPrecond (st : PrecondState) : PrecondState :=
  if st.has_generated_precond then
    { st with generated_precond := none, has_generated_precond := false }
  else st

/-- Embedding of `GinkgoPreconditioner::SetOperator`: release any prior
generated instance first; only a `SparseMatrix` is accepted
(`MFEM_VERIFY`, fatal otherwise); on success a new instance is generated
from the CSR view and the flag set. -/
def GinkgoPreconditioner.SetOperator (st : PrecondState) (op : OperInput) :
    PrecondSetOpOutcome :=
  let st1 := releasePriorPrecond st
  match op with
  | .sparse h w nnz =>
      .ok { st1 with
            generated_precond := some (.generated h w nnz)
            has_generated_precond := true }
  | .generic _ _ =>
      .fatal "GinkgoPreconditioner SetOperator not a SparseMatrix" st1

/-- C3 counterexample: with a prior operator bound (respectively a prior
generated preconditioner present), a fatal `SetOperator` call does not
leave the prior state untouched — the previously bound operator and
generated instance have already been released when the error is raised,
so the state at the abort differs from the prior state. -/
theorem C3_partial_mutation_counterexample :
    GinkgoIterativeSolver.SetOperator
      { system_oper := some (.csr 2 2 4), solver := some (.generated (.csr 2 2 4)),
        needs_wrapped_vecs := false, sub_op_needs_wrapped_vecs := false }
      (.sparse 2 3 6) =
      .fatal "System matrix is not square"
        { system_oper := none, solver := none,
          needs_wrapped_vecs := false, sub_op_needs_wrapped_vecs := false } ∧
    ({ system_oper := none, solver := none, needs_wrapped_vecs := false,
       sub_op_needs_wrapped_vecs := false } : IterSolverState) ≠
      { system_oper := some (.csr 2 2 4), solver := some (.generated (.csr 2 2 4)),
        needs_wrapped_vecs := false, sub_op_needs_wrapped_vecs := false } ∧
    GinkgoPreconditioner.SetOperator
      { generated_precond := some (.generated 2 2 4), has_generated_precond := true }
      (.generic 2 2) =
      .fatal "GinkgoPreconditioner SetOperator not a SparseMatrix"
        { generated_precond := none, has_generated_precond := false } ∧
    ({ generated_precond := none, has_generated_precond := false } : PrecondState) ≠
      { generated_precond := some (.generated 2 2 4),
        has_generated_precond := true } := by
  decide

/-- Helper: the release step clears the bound operator, clears the
generated solver when an operator was bound, and never touches
`sub_op_needs_wrapped_vecs`. -/
theorem releasePriorBinding_spec (st : IterSolverState) :
    (releasePriorBinding st).sub_op_needs_wrapped_vecs
      = st.sub_op_needs_wrapped_vecs ∧
    (releasePriorBinding st).system_oper = none ∧
    (st.system_oper.isSome = true → (releasePriorBinding st).solver = none) := by
  unfold releasePriorBinding
  rcases hso : st.system_oper with _ | op <;> simp [hso]

/-- Helper: the preconditioner release step always leaves
`has_generated_precond` false and clears a previously generated
instance. -/
theorem releasePriorPrecond_spec (st : PrecondState) :
    (releasePriorPrecond st).has_generated_precond = false ∧
    (st.has_generated_precond = true →
      (releasePriorPrecond st).generated_precond = none) := by
  unfold releasePriorPrecond
  by_cases h : st.has_generated_precond = true <;> simp [h]

/-- C3 amended: a fatal `SetOperator` aborts with the prior binding
already released, not untouched — the state at the abort is exactly the
release-step state: the previously bound operator is gone, the generated
solver/preconditioner instance is gone whenever one existed, the
iterative solver's `sub_op_needs_wrapped_vecs` flag is untouched, and a
non-square `SparseMatrix` (resp. a generic operator for the
preconditioner) is precisely what triggers the abort. -/
theorem C3_fatal_aborts_with_binding_released :
    (∀ (st : IterSolverState) (h w nnz : Nat), h ≠ w →
       GinkgoIterativeSolver.SetOperator st (.sparse h w nnz) =
         .fatal "System matrix is not square" (releasePriorBinding st)) ∧
    (∀ (st : IterSolverState) (op : OperInput) (msg : String)
        (stA : IterSolverState),
       GinkgoIterativeSolver.SetOperator st op = .fatal msg stA →
       stA = releasePriorBinding st ∧
       stA.system_oper = none ∧
       (st.system_oper.isSome = true → stA.solver = none) ∧
       stA.sub_op_needs_wrapped_vecs = st.sub_op_needs_wrapped_vecs) ∧
    (∀ (st : PrecondState) (h w : Nat),
       GinkgoPreconditioner.SetOperator st (.generic h w) =
         .fatal "GinkgoPreconditioner SetOperator not a SparseMatrix"
           (releasePriorPrecond st)) ∧
    (∀ (st : PrecondState) (op : OperInput) (msg : String) (pstA : PrecondState),
       GinkgoPreconditioner.SetOperator st op = .fatal msg pstA →
       pstA = releasePriorPrecond st ∧
       pstA.has_generated_precond = false ∧
       (st.has_generated_precond = true → pstA.generated_precond = none)) := by
  refine ⟨?_, ?_, ?_, ?_⟩
  · intro st h w nnz hne
    simp [GinkgoIterativeSolver.SetOperator, hne]
  · intro st op msg stA hf
    cases op with
    | sparse h w nnz =>
        by_cases hw : h ≠ w
        · simp only [GinkgoIterativeSolver.SetOperator, if_pos hw] at hf
          injection hf with hmsg hstA
          subst hstA
          exact ⟨rfl, (releasePriorBinding_spec st).2.1,
            (releasePriorBinding_spec st).2.2, (releasePriorBinding_spec st).1⟩
        · simp [GinkgoIterativeSolver.SetOperator, hw] at hf
    | generic h w =>
        simp [GinkgoIterativeSolver.SetOperator] at hf
  · intro st h w
    simp [GinkgoPreconditioner.SetOperator]
  · intro st op msg pstA hf
    cases op with
    | sparse h w nnz =>
        simp [GinkgoPreconditioner.SetOperator] at hf
    | generic h w =>
        simp only [GinkgoPreconditioner.SetOperator] at hf
        injection hf with hmsg hstA
        subst hstA
        exact ⟨rfl, (releasePriorPrecond_spec st).1,
          (releasePriorPrecond_spec st).2⟩

/-- C3 witness: the amended characterization applied at a concrete bound
solver hit with a non-square matrix and a concrete generated
preconditioner hit with a generic operator. -/
theorem C3_fatal_aborts_with_binding_released_witness :
    (releasePriorBinding
        { system_oper := some (.csr 2 2 4),
          solver := some (.generated (.csr 2 2 4)),
          needs_wrapped_vecs := false, sub_op_needs_wrapped_vecs := false } =
      releasePriorBinding
        { system_oper := some (.csr 2 2 4),
          solver := some (.generated (.csr 2 2 4)),
          needs_wrapped_vecs := false, sub_op_needs_wrapped_vecs := false } ∧
      (releasePriorBinding
        { system_oper := some (.csr 2 2 4),
          solver := some (.generated (.csr 2 2 4)),
          needs_wrapped_vecs := false,
          sub_op_needs_wrapped_vecs := false }).system_oper = none ∧
      ((some (BoundOper.csr 2 2 4)).isSome = true →
        (releasePriorBinding
          { system_oper := some (.csr 2 2 4),
            solver := some (.generated (.csr 2 2 4)),
            needs_wrapped_vecs := false,
            sub_op_needs_wrapped_vecs := false }).solver = none) ∧
      (releasePriorBinding
        { system_oper := some (.csr 2 2 4),
          solver := some (.generated (.csr 2 2 4)),
          needs_wrapped_vecs := false,
          sub_op_needs_wrapped_vecs := false }).sub_op_needs_wrapped_vecs
        = false) ∧
    (releasePriorPrecond
        { generated_precond := some (.generated 2 2 4),
          has_generated_precond := true } =
      releasePriorPrecond
        { generated_precond := some (.generated 2 2 4),
          has_generated_precond := true } ∧
      (releasePriorPrecond
        { generated_precond := some (.generated 2 2 4),
          has_generated_precond := true }).has_generated_precond = false ∧
      (true = true →
        (releasePriorPrecond
          { generated_precond := some (.generated 2 2 4),
            has_generated_precond := true }).generated_precond = none)) :=
  ⟨C3_fatal_aborts_with_binding_released.2.1
      { system_oper := some (.csr 2 2 4),
        solver := some (.generated (.csr 2 2 4)),
        needs_wrapped_vecs := false, sub_op_needs_wrapped_vecs := false }
      (.sparse 2 3 6) "System matrix is not square"
      (releasePriorBinding
        { system_oper := some (.csr 2 2 4),
          solver := some (.generated (.csr 2 2 4)),
          needs_wrapped_vecs := false, sub_op_needs_wrapped_vecs := false })
      (by decide),
   C3_fatal_aborts_with_binding_released.2.2.2
      { generated_precond := some (.generated 2 2 4),
        has_generated_precond := true }
      (.generic 2 2) "GinkgoPreconditioner SetOperator not a SparseMatrix"
      (releasePriorPrecond
        { generated_precond := some (.generated 2 2 4),
          has_generated_precond := true })
      (by decide)⟩

/-- The flag invariant of C10: a wrapped sub-operator forces wrapped
vectors. -/
def flagsInv (st : IterSolverState) : Prop :=
  st.sub_op_needs_wrapped_vecs = true → st.needs_wrapped_vecs = true

/-- Helper: the release step of `SetOperator` preserves the flag
invariant. -/
theorem flagsInv_releasePriorBinding (st : IterSolverState) (h : flagsInv st) :
    flagsInv (releasePriorBinding st) := by
  intro hs
  by_cases hsub : st.sub_op_needs_wrapped_vecs = true
  · have hneeds := h hsub
    unfold releasePriorBinding
    by_cases hso : st.system_oper.isSome <;> simp [hso, hneeds, hsub]
  · exfalso
    apply hsub
    rw [← (releasePriorBinding_spec st).1]
    exact hs

/-- C10: the implication `sub_op_needs_wrapped_vecs → needs_wrapped_vecs`
holds after the plain constructor, after the preconditioned-solver
constructors (which set the two flags together when they detect a wrapped
generated preconditioner), after the `IRSolver` constructor (likewise for
a wrapped inner solver), and is preserved by every `SetOperator`
transition; moreover `SetOperator` never clears `needs_wrapped_vecs` when
`sub_op_needs_wrapped_vecs` is set. -/
theorem C10_wrapped_flags_invariant :
    flagsInv GinkgoIterativeSolver.initState ∧
    (∀ hg iw : Bool, flagsInv (CGSolver.mkWithPrecond hg iw) ∧
       (hg = true → iw = true →
         (CGSolver.mkWithPrecond hg iw).needs_wrapped_vecs = true ∧
         (CGSolver.mkWithPrecond hg iw).sub_op_needs_wrapped_vecs = true)) ∧
    (∀ b : Bool, flagsInv (IRSolver.mkWithInner b) ∧
       (b = true →
         (IRSolver.mkWithInner b).needs_wrapped_vecs = true ∧
         (IRSolver.mkWithInner b).sub_op_needs_wrapped_vecs = true)) ∧
    (∀ (st : IterSolverState) (op : OperInput), flagsInv st →
       (∀ st', GinkgoIterativeSolver.SetOperator st op = .ok st' →
          flagsInv st') ∧
       (∀ msg stA, GinkgoIterativeSolver.SetOperator st op = .fatal msg stA →
          flagsInv stA)) ∧
    (∀ (st : IterSolverState) (op : OperInput) (st' : IterSolverState),
       st.sub_op_needs_wrapped_vecs = true → st.needs_wrapped_vecs = true →
       GinkgoIterativeSolver.SetOperator st op = .ok st' →
       st'.needs_wrapped_vecs = true ∧
       st'.sub_op_needs_wrapped_vecs = true) := by
  refine ⟨?_, ?_, ?_, ?_, ?_⟩
  · intro hs
    exact absurd hs (by decide)
  · intro hg iw
    constructor
    · cases hg <;> cases iw <;> intro hs <;> revert hs <;> decide
    · intro h1 h2
      subst h1; subst h2
      refine ⟨?_, ?_⟩ <;> decide
  · intro b
    constructor
    · cases b <;> intro hs <;> revert hs <;> decide
    · intro h1
      subst h1
      refine ⟨?_, ?_⟩ <;> decide
  · intro st op hinv
    have hrel := flagsInv_releasePriorBinding st hinv
    constructor
    · intro st' hok
      cases op with
      | sparse h w nnz =>
          by_cases hw : h ≠ w
          · simp [GinkgoIterativeSolver.SetOperator, hw] at hok
          · simp only [GinkgoIterativeSolver.SetOperator, if_neg hw] at hok
            injection hok with hok
            subst hok
            intro hs
            exact hrel hs
      | generic h w =>
          simp only [GinkgoIterativeSolver.SetOperator] at hok
          injection hok with hok
          subst hok
          intro hs
          rfl
    · intro msg stA hf
      cases op with
      | sparse h w nnz =>
          by_cases hw : h ≠ w
          · simp only [GinkgoIterativeSolver.SetOperator, if_pos hw] at hf
            injection hf with hmsg hstA
            subst hstA
            exact hrel
          · simp [GinkgoIterativeSolver.SetOperator, hw] at hf
      | generic h w =>
          simp [GinkgoIterativeSolver.SetOperator] at hf
  · intro st op st' hsub hneeds hok
    have hrelsub : (releasePriorBinding st).sub_op_needs_wrapped_vecs = true := by
      rw [(releasePriorBinding_spec st).1]
      exact hsub
    have hrelneeds : (releasePriorBinding st).needs_wrapped_vecs = true :=
      flagsInv_releasePriorBinding st (fun _ => hneeds) hrelsub
    cases op with
    | sparse h w nnz =>
        by_cases hw : h ≠ w
        · simp [GinkgoIterativeSolver.SetOperator, hw] at hok
        · simp only [GinkgoIterativeSolver.SetOperator, if_neg hw] at hok
          injection hok with hok
          subst hok
          exact ⟨hrelneeds, hrelsub⟩
    | generic h w =>
        simp only [GinkgoIterativeSolver.SetOperator] at hok
        injection hok with hok
        subst hok
        exact ⟨rfl, hrelsub⟩

/-- C10 witness: the invariant checked on concrete states — the fresh
constructor state, a wrapping `CGSolver` construction, a wrapping
`IRSolver` construction, and a `SetOperator` transition from a state with
a wrapped sub-operator. -/
theorem C10_wrapped_flags_invariant_witness :
    flagsInv GinkgoIterativeSolver.initState ∧
    flagsInv (CGSolver.mkWithPrecond true true) ∧
    flagsInv (IRSolver.mkWithInner true) ∧
    ({ system_oper := some (.wrapper 3),
       solver := some (.generated (.wrapper 3)),
       needs_wrapped_vecs := true,
       sub_op_needs_wrapped_vecs := true } : IterSolverState).needs_wrapped_vecs
      = true ∧
    (∀ st', GinkgoIterativeSolver.SetOperator
        { system_oper := some (.wrapper 3),
          solver := some (.generated (.wrapper 3)),
          needs_wrapped_vecs := true, sub_op_needs_wrapped_vecs := true }
        (.sparse 2 2 4) = .ok st' → flagsInv st') :=
  ⟨C10_wrapped_flags_invariant.1,
   (C10_wrapped_flags_invariant.2.1 true true).1,
   (C10_wrapped_flags_invariant.2.2.1 true).1,
   rfl,
   (C10_wrapped_flags_invariant.2.2.2.1
      { system_oper := some (.wrapper 3),
        solver := some (.generated (.wrapper 3)),
        needs_wrapped_vecs := true, sub_op_needs_wrapped_vecs := true }
      (.sparse 2 2 4) (fun _ => rfl)).1⟩

/-! ## AMG preconditioner assembly
(`AMGPreconditioner::AMGPreconditioner`, lines 1123-1447) -/

/-- The `SmootherType` enumeration of `AMGPreconditioner`. -/
inductive SmootherType
  | JACOBI
  | BLOCK_JACOBI
  | IC
  | PARIC
  | CG
deriving DecidableEq, Repr

/-- Floating-point precision of a pipeline component (`double` templates
vs. the reduced-precision `float` templates). -/
inductive Precision
  | double
  | single
deriving DecidableEq, Repr

/-- The inner solver wrapped by `gko::solver::build_smoother`. -/
inductive InnerSolverKind
  | jacobiScalar
  | jacobiBlock
  | icFact
  | parIcFact
deriving DecidableEq, Repr

/-- A smoother/coarse-solver factory as the AMG constructor builds it:
either `build_smoother(inner, iters, relax)` over an inner preconditioner
at a given precision, or a CG factory with a fixed iteration cap. -/
inductive LinOpFactory
  | smootherOf (inner : InnerSolverKind) (prec : Precision) (iters : Nat) (relax : ℚ)
  | cgWithIters (prec : Precision) (maxIters : Nat)
deriving DecidableEq, Repr

/-- Embedding of the smoother-building `switch (smoother)` of the AMG
constructor: returns the pair `(smoother_gen, smoother_gen_s)`, both
starting as null factory pointers.  For JACOBI, BLOCK_JACOBI, IC and
PARIC the double-precision smoother is assigned to `smoother_gen` and,
under mixed precision, a float smoother to `smoother_gen_s`.  In the CG
case the source assigns the float CG factory to `smoother_gen` itself
(overwriting the double one) and never assigns `smoother_gen_s`. -/
def buildSmootherGens (smoother : SmootherType) (pre_sweeps : Nat)
    (use_mixed_prec : Bool) : Option LinOpFactory × Option LinOpFactory :=
  match smoother with
  | .JACOBI =>
      (some (.smootherOf .jacobiScalar .double pre_sweeps (9/10)),
       if use_mixed_prec then
         some (.smootherOf .jacobiScalar .single pre_sweeps (9/10))
       else none)
  | .BLOCK_JACOBI =>
      (some (.smootherOf .jacobiBlock .double pre_sweeps (9/10)),
       if use_mixed_prec then
         some (.smootherOf .jacobiBlock .single pre_sweeps (9/10))
       else none)
  | .IC =>
      (some (.smootherOf .icFact .double pre_sweeps (9/10)),
       if use_mixed_prec then
         some (.smootherOf .icFact .single pre_sweeps (9/10))
       else none)
  | .PARIC =>
      (some (.smootherOf .parIcFact .double pre_sweeps (9/10)),
       if use_mixed_prec then
         some (.smootherOf .parIcFact .single pre_sweeps (9/10))
       else none)
  | .CG =>
      (if use_mixed_prec then some (.cgWithIters .single pre_sweeps)
       else some (.cgWithIters .double pre_sweeps),
       none)

/-- Embedding of the coarse-solver `switch (coarse_solver)`: one factory
is built, in float under mixed precision and in double otherwise. -/
def buildCoarseSolverGen (coarse_solver : SmootherType) (coarse_solve_its : Nat)
    (use_mixed_prec : Bool) : Option LinOpFactory :=
  match coarse_solver with
  | .JACOBI =>
      if use_mixed_prec then
        some (.smootherOf .jacobiScalar .single coarse_solve_its (9/10))
      else some (.smootherOf .jacobiScalar .double coarse_solve_its (9/10))
  | .BLOCK_JACOBI =>
      if use_mixed_prec then
        some (.smootherOf .jacobiBlock .single coarse_solve_its (9/10))
      else some (.smootherOf .jacobiBlock .double coarse_solve_its (9/10))
  | .IC =>
      if use_mixed_prec then
        some (.smootherOf .icFact .single coarse_solve_its (9/10))
      else some (.smootherOf .icFact .double coarse_solve_its (9/10))
  | .PARIC =>
      if use_mixed_prec then
        some (.smootherOf .parIcFact .single coarse_solve_its (9/10))
      else some (.smootherOf .parIcFact .double coarse_solve_its (9/10))
  | .CG =>
      if use_mixed_prec then some (.cgWithIters .single coarse_solve_its)
      else some (.cgWithIters .double coarse_solve_its)

/-- An `AmgxPgm` coarsening (multigrid-level) factory: precision and the
`with_deterministic` / `with_skip_sorting` settings. -/
structure MgLevelFactory where
  prec : Precision
  deterministic : Bool
  skip_sorting : Bool
deriving DecidableEq, Repr

/-- `mg_top_level_gen`: built only when needed — with `skip_sort` it is
built (sorting skipped) only in the mixed-precision configuration,
otherwise a sorting top level is always built. -/
def buildMgTopLevelGen (skip_sort use_mixed_prec : Bool) :
    Option MgLevelFactory :=
  if skip_sort then
    if use_mixed_prec then
      some { prec := .double, deterministic := true, skip_sorting := true }
    else none
  else
    some { prec := .double, deterministic := true, skip_sorting := false }

/-- `mg_level_gen`: the double-precision level factory that always skips
sorting. -/
def mgLevelGen : MgLevelFactory :=
  { prec := .double, deterministic := true, skip_sorting := true }

/-- `mg_level_gen_s`: the single-precision level factory for
mixed-precision runs. -/
def mgLevelGenS : MgLevelFactory :=
  { prec := .single, deterministic := true, skip_sorting := true }

/-- The level-selector lambda of the AMG constructor:
`(level == 0) ? 0 : 1`. -/
def levelSelector (level : Nat) : Nat :=
  if level = 0 then 0 else 1

/-- The parameters of the assembled `gko::solver::Multigrid` factory
(`precond_gen`): coarse-size bound, the pre-smoother factory list, the
mg-level factory list, whether a level selector was attached, the
coarsest solver, the `Iteration` criterion's cap, and the
`with_zero_guess` flag. -/
structure MgParams where
  min_coarse_rows : Nat
  pre_smoothers : List (Option LinOpFactory)
  mg_levels : List (Option MgLevelFactory)
  has_level_selector : Bool
  coarsest_solver : Option LinOpFactory
  criteria_max_iters : Nat
  zero_guess : Bool
deriving DecidableEq, Repr

/-- Embedding of the `AMGPreconditioner` constructor's final assembly of
`precond_gen` (the `post_sweeps` argument is accepted but unused, as in
the source).  Mixed precision: two pre-smoothers, top level plus
single-precision levels, a level selector.  Otherwise, with `skip_sort`
a single level factory serves all levels and no selector is attached;
without `skip_sort` a sorting top level plus non-sorting levels are used
with the selector.  Every branch sets an `Iteration` criterion with
`max_iters = 1` and `with_zero_guess(true)`. -/
def AMGPreconditioner.buildPrecondGen (smoother : SmootherType)
    (pre_sweeps post_sweeps : Nat) (coarse_solver : SmootherType)
    (coarse_solve_its : Nat) (use_mixed_prec skip_sort : Bool) : MgParams :=
  let sg := buildSmootherGens smoother pre_sweeps use_mixed_prec
  let coarse := buildCoarseSolverGen coarse_solver coarse_solve_its use_mixed_prec
  let top := buildMgTopLevelGen skip_sort use_mixed_prec
  if use_mixed_prec then
    { min_coarse_rows := 64
      pre_smoothers := [sg.1, sg.2]
      mg_levels := [top, some mgLevelGenS]
      has_level_selector := true
      coarsest_solver := coarse
      criteria_max_iters := 1
      zero_guess := true }
  else if skip_sort then
    { min_coarse_rows := 64
      pre_smoothers := [sg.1]
      mg_levels := [some mgLevelGen]
      has_level_selector := false
      coarsest_solver := coarse
      criteria_max_iters := 1
      zero_guess := true }
  else
    { min_coarse_rows := 64
      pre_smoothers := [sg.1]
      mg_levels := [top, some mgLevelGen]
      has_level_selector := true
      coarsest_solver := coarse
      criteria_max_iters := 1
      zero_guess := true }

/-- The pre-smoother the assembled multigrid uses on a given level: with a
level selector and several factories, the factory-list entry at
`levelSelector level`; a single-entry list serves every level. -/
def selectedPreSmoother (p : MgParams) (level : Nat) : Option LinOpFactory :=
  if p.has_level_selector ∧ 1 < p.pre_smoothers.length then
    p.pre_smoothers.getD (levelSelector level) none
  else p.pre_smoothers.getD 0 none

/-- The effective initial guess of one multigrid application: with
`with_zero_guess(true)` the previous content of the output vector is
discarded and a zero vector is used, whatever the caller passed. -/
def mgInitialGuess (p : MgParams) (y : List ℚ) : List ℚ :=
  if p.zero_guess then y.map fun _ => 0 else y

/-- C4: the claim says every smoother kind builds both a full-precision
and a reduced-precision smoother pipeline under mixed precision, with the
selector giving level 0 the full-precision one.  For the CG smoother the
source instead overwrites `smoother_gen` with the float CG factory and
never assigns `smoother_gen_s` — so under mixed precision level 0
receives the reduced-precision CG smoother and every other level receives
no smoother factory at all.  The JACOBI case shows the pattern the four
other kinds follow (full precision at level 0, reduced elsewhere), which
the CG case contradicts — evidence of a slip in the code. -/
theorem C4_cg_mixed_smoother_overwritten :
    buildSmootherGens .CG 2 true = (some (.cgWithIters .single 2), none) ∧
    selectedPreSmoother
      (AMGPreconditioner.buildPrecondGen .CG 2 2 .CG 4 true false) 0 =
      some (.cgWithIters .single 2) ∧
    selectedPreSmoother
      (AMGPreconditioner.buildPrecondGen .CG 2 2 .CG 4 true false) 3 = none ∧
    selectedPreSmoother
      (AMGPreconditioner.buildPrecondGen .JACOBI 2 2 .CG 4 true false) 0 =
      some (.smootherOf .jacobiScalar .double 2 (9/10)) ∧
    selectedPreSmoother
      (AMGPreconditioner.buildPrecondGen .JACOBI 2 2 .CG 4 true false) 3 =
      some (.smootherOf .jacobiScalar .single 2 (9/10)) :=
  ⟨rfl, rfl, rfl, rfl, rfl⟩

/-- C7: every configuration of the AMG constructor (any smoother kind,
coarse-solver kind, sweep counts, mixed-precision and skip-sort flags)
assembles the multigrid factory with an `Iteration` criterion capped at
exactly 1 and `with_zero_guess(true)`, so one application runs one fixed
multigrid cycle from a zero initial guess: the caller's previous output
content is discarded whatever the outer solver's warm-start setting, and
no application can reuse a previous application's result. -/
theorem C7_one_cycle_zero_guess (smoother coarse_solver : SmootherType)
    (pre_sweeps post_sweeps coarse_solve_its : Nat)
    (use_mixed_prec skip_sort : Bool) (y : List ℚ) :
    (AMGPreconditioner.buildPrecondGen smoother pre_sweeps post_sweeps
        coarse_solver coarse_solve_its use_mixed_prec skip_sort).criteria_max_iters
      = 1 ∧
    (AMGPreconditioner.buildPrecondGen smoother pre_sweeps post_sweeps
        coarse_solver coarse_solve_its use_mixed_prec skip_sort).zero_guess
      = true ∧
    mgInitialGuess
      (AMGPreconditioner.buildPrecondGen smoother pre_sweeps post_sweeps
        coarse_solver coarse_solve_its use_mixed_prec skip_sort) y
      = y.map fun _ => 0 := by
  cases use_mixed_prec <;> cases skip_sort <;> exact ⟨rfl, rfl, rfl⟩

end MfemGinkgo
